import Mathlib

/-!
Verification of the GPU presentation and frame-pacing core of the VulkanGame
repository. The development shallowly embeds the device-selection and
swap-chain policy helpers of src/VulkanGame/utils.cpp, the swap-chain
creation, initialization order and frame loop of src/VulkanGame/game.cpp,
and the configuration of src/VulkanGame/constants.hpp, then settles the
stated properties against that embedding.
-/

/-- `UINT32_MAX` from `<cstdint>`. -/
def UINT32_MAX : Nat := 2 ^ 32 - 1

/-- `VkExtent2D`: a width and a height in pixels. -/
structure Extent2D where
  width : Nat
  height : Nat
  deriving DecidableEq

/-- `VkSurfaceCapabilitiesKHR`, restricted to the fields the core reads. -/
structure SurfaceCapabilities where
  currentExtent : Extent2D
  minImageExtent : Extent2D
  maxImageExtent : Extent2D
  minImageCount : Nat
  maxImageCount : Nat
  deriving DecidableEq

/-- `VkFormat`, restricted to representative constructors; the core only ever
    compares against `VK_FORMAT_B8G8R8A8_SRGB`. -/
inductive Format where
  | b8g8r8a8Srgb
  | r8g8b8a8Srgb
  | b8g8r8a8Unorm
  deriving DecidableEq

/-- `VkColorSpaceKHR`; the core only ever compares against
    `VK_COLOR_SPACE_SRGB_NONLINEAR_KHR`. -/
inductive ColorSpace where
  | srgbNonlinear
  | displayP3Nonlinear
  deriving DecidableEq

/-- `VkSurfaceFormatKHR`. -/
structure SurfaceFormat where
  format : Format
  colorSpace : ColorSpace
  deriving DecidableEq

/-- `VkPresentModeKHR`. -/
inductive PresentMode where
  | immediate
  | mailbox
  | fifo
  | fifoRelaxed
  deriving DecidableEq

/-- `VkPhysicalDeviceType`. -/
inductive PhysicalDeviceType where
  | other
  | integratedGpu
  | discreteGpu
  | virtualGpu
  | cpu
  deriving DecidableEq

/-- One queue family of a device, as the selector observes it: whether its
    `queueFlags` contain `VK_QUEUE_GRAPHICS_BIT`, and the answer
    `vkGetPhysicalDeviceSurfaceSupportKHR` gives for the target surface. -/
structure QueueFamily where
  graphics : Bool
  presentSupport : Bool
  deriving DecidableEq

/-- A physical device together with everything the core queries about it
    against the target surface: properties, features, device extensions,
    swap-chain support and queue families. -/
structure PhysicalDevice where
  deviceName : String
  deviceType : PhysicalDeviceType
  maxImageDimension2D : Nat
  geometryShader : Bool
  availableExtensions : List String
  capabilities : SurfaceCapabilities
  formats : List SurfaceFormat
  presentModes : List PresentMode
  queueFamilies : List QueueFamily
  deriving DecidableEq

namespace constants

/-- `constants::width` (src/VulkanGame/constants.hpp). -/
def width : Nat := 1920

/-- `constants::height` (src/VulkanGame/constants.hpp). -/
def height : Nat := 1080

/-- `constants::deviceExtensions`: only `VK_KHR_SWAPCHAIN_EXTENSION_NAME`. -/
def deviceExtensions : List String := ["VK_KHR_swapchain"]

end constants

namespace Utils

/-- `Utils::QueueFamilyIndices`. -/
structure QueueFamilyIndices where
  graphicsFamily : Option Nat
  presentFamily : Option Nat
  deriving DecidableEq

/-- `Utils::QueueFamilyIndices::containsValue`. -/
def QueueFamilyIndices.containsValue (indices : QueueFamilyIndices) : Bool :=
  indices.graphicsFamily.isSome && indices.presentFamily.isSome

/-- The loop of `Utils::findQueueFamilies`: walk the queue families with a
    running index, record each family with the graphics bit and each family
    with present support, and break as soon as both indices are assigned. -/
def findQueueFamiliesAux : List QueueFamily → Nat → QueueFamilyIndices → QueueFamilyIndices
  | [], _, indices => indices
  | qf :: rest, i, indices =>
    let indices' := if qf.graphics then { indices with graphicsFamily := some i } else indices
    let indices'' :=
      if qf.presentSupport then { indices' with presentFamily := some i } else indices'
    if indices''.containsValue then indices''
    else findQueueFamiliesAux rest (i + 1) indices''

/-- `Utils::findQueueFamilies` (src/VulkanGame/utils.cpp:196). -/
def findQueueFamilies (device : PhysicalDevice) : QueueFamilyIndices :=
  findQueueFamiliesAux device.queueFamilies 0 ⟨none, none⟩

/-- `Utils::hasDeviceExtensionSupport` (src/VulkanGame/utils.cpp:233): erase
    every available extension from the required set; support holds exactly when
    the required set is left empty. -/
def hasDeviceExtensionSupport (device : PhysicalDevice) : Bool :=
  (device.availableExtensions.foldl (fun req ext => req.erase ext)
    constants.deviceExtensions).isEmpty

/-- `Utils::SwapChainSupportDetails`. -/
structure SwapChainSupportDetails where
  capabilities : SurfaceCapabilities
  formats : List SurfaceFormat
  presentModes : List PresentMode
  deriving DecidableEq

/-- `Utils::querySwapChainSupport` (src/VulkanGame/utils.cpp:306): the three
    surface queries, read off the device model. -/
def querySwapChainSupport (device : PhysicalDevice) : SwapChainSupportDetails :=
  ⟨device.capabilities, device.formats, device.presentModes⟩

/-- `Utils::getDeviceScore` (src/VulkanGame/utils.cpp:253). The C++ `int`
    score is modelled as `Nat`: every summand the function produces is
    non-negative. -/
def getDeviceScore (device : PhysicalDevice) : Nat :=
  if !device.geometryShader then 0
  else if !hasDeviceExtensionSupport device then 0
  else
    let swapChainSupport := querySwapChainSupport device
    if swapChainSupport.formats.isEmpty || swapChainSupport.presentModes.isEmpty then 0
    else
      let index := findQueueFamilies device
      if !index.containsValue then 0
      else
        (if device.deviceType = PhysicalDeviceType.discreteGpu then 1000 else 0) +
          device.maxImageDimension2D

/-- The preference test of `Utils::chooseSwapSurfaceFormat`: 32-bit BGRA sRGB
    with nonlinear sRGB colour space. -/
def isPreferredFormat (fmt : SurfaceFormat) : Bool :=
  fmt.format == Format.b8g8r8a8Srgb && fmt.colorSpace == ColorSpace.srgbNonlinear

/-- `Utils::chooseSwapSurfaceFormat` (src/VulkanGame/utils.cpp:337): first
    preferred entry, else element `0`. The unchecked `availableFormats[0]`
    fallback is embedded as `availableFormats[0]?`, so the out-of-bounds case
    is visible as `none`. -/
def chooseSwapSurfaceFormat (availableFormats : List SurfaceFormat) : Option SurfaceFormat :=
  match availableFormats.find? isPreferredFormat with
  | some fmt => some fmt
  | none => availableFormats[0]?

/-- `Utils::chooseSwapExtent` (src/VulkanGame/utils.cpp:361): adopt
    `currentExtent` unless its width equals `UINT32_MAX`; otherwise clamp the
    configured window size `constants::width` by `constants::height` into the
    allowed extent range on each axis. -/
def chooseSwapExtent (capabilities : SurfaceCapabilities) : Extent2D :=
  if capabilities.currentExtent.width ≠ UINT32_MAX then
    capabilities.currentExtent
  else
    { width := max capabilities.minImageExtent.width
        (min capabilities.maxImageExtent.width constants.width),
      height := max capabilities.minImageExtent.height
        (min capabilities.maxImageExtent.height constants.height) }

end Utils

namespace Game

/-- One ordered insertion into the `std::multimap<int, VkPhysicalDevice>` of
    `Game::pickPhysicalDevice`: the new pair is placed after every entry whose
    key is at most its own, so the sequence stays sorted by score with equal
    scores kept in insertion order. -/
def multimapInsert : List (Nat × PhysicalDevice) → Nat × PhysicalDevice → List (Nat × PhysicalDevice)
  | [], p => [p]
  | q :: rest, p => if p.1 < q.1 then p :: q :: rest else q :: multimapInsert rest p

/-- `Game::pickPhysicalDevice` (src/VulkanGame/game.cpp:116): score every
    enumerated device into the multimap and inspect `candidates.rbegin()`,
    the last entry of the sorted sequence. -/
def pickPhysicalDevice (devices : List PhysicalDevice) : Except String PhysicalDevice :=
  if devices.isEmpty then
    Except.error "Failed to find any GPUs with Vulkan support!"
  else
    let candidates :=
      devices.foldl (fun m d => multimapInsert m (Utils.getDeviceScore d, d)) []
    match candidates.getLast? with
    | some best =>
      if best.1 > 0 then Except.ok best.2
      else Except.error "Failed to find a suitable GPU!"
    | none => Except.error "Failed to find a suitable GPU!"

/-- The image-count computation at the top of `Game::createSwapchain`
    (src/VulkanGame/game.cpp:234): `minImageCount + 1` in `uint32_t`
    arithmetic, capped at `maxImageCount` when that bound is non-zero. -/
def swapImageCount (capabilities : SurfaceCapabilities) : Nat :=
  let imageCount := (capabilities.minImageCount + 1) % 2 ^ 32
  if capabilities.maxImageCount > 0 ∧ imageCount > capabilities.maxImageCount then
    capabilities.maxImageCount
  else
    imageCount

/-- `VkResult`, restricted to the values `Game::drawFrame` distinguishes;
    `otherError` stands for every non-success code other than
    `VK_SUBOPTIMAL_KHR` and `VK_ERROR_OUT_OF_DATE_KHR`. -/
inductive VkResult where
  | success
  | suboptimalKHR
  | errorOutOfDateKHR
  | otherError
  deriving DecidableEq

/-- The mutable fields of `Game` that the frame loop and the swap-chain
    rebuild touch; each handle vector is modelled by its length. -/
structure GameState where
  numSwapchainImages : Nat
  numImageViews : Nat
  numFramebuffers : Nat
  numUniformBuffers : Nat
  numCommandBuffers : Nat
  numImagesInFlight : Nat
  currentFrame : Nat
  framebufferResized : Bool
  deriving DecidableEq

/-- The members of `Game` before `initVulkan` runs: empty vectors,
    `currentFrame = 0`, `framebufferResized = false`. -/
def initialState : GameState :=
  { numSwapchainImages := 0, numImageViews := 0, numFramebuffers := 0,
    numUniformBuffers := 0, numCommandBuffers := 0, numImagesInFlight := 0,
    currentFrame := 0, framebufferResized := false }

/-- `Game::createSwapchain` on the state: `vkGetSwapchainImagesKHR` fills
    `swapchainImages` with the driver-chosen `imageCount` images. -/
def createSwapchain (imageCount : Nat) (st : GameState) : GameState :=
  { st with numSwapchainImages := imageCount }

/-- `Game::createImageViews`: `swapchainImageViews.resize(swapchainImages.size())`
    and one view created per image. -/
def createImageViews (st : GameState) : GameState :=
  { st with numImageViews := st.numSwapchainImages }

/-- `Game::createRenderPass`: creates the render pass; no vector is resized. -/
def createRenderPass (st : GameState) : GameState := st

/-- `Game::createDescriptorSetLayout`: creates the layout; no vector is resized. -/
def createDescriptorSetLayout (st : GameState) : GameState := st

/-- `Game::createGraphicsPipeline` on the state: reads the shaders and creates
    the pipeline; no vector is resized. -/
def createGraphicsPipeline (st : GameState) : GameState := st

/-- `Game::createFramebuffers`:
    `swapchainFramebuffers.resize(swapchainImageViews.size())`. -/
def createFramebuffers (st : GameState) : GameState :=
  { st with numFramebuffers := st.numImageViews }

/-- `Game::createCommandPool`: creates the pool; no vector is resized. -/
def createCommandPool (st : GameState) : GameState := st

/-- `Game::createVertexBuffer`: staged upload of the vertex data; no
    per-image vector is resized. -/
def createVertexBuffer (st : GameState) : GameState := st

/-- `Game::createIndexBuffer`: staged upload of the index data; no per-image
    vector is resized. -/
def createIndexBuffer (st : GameState) : GameState := st

/-- `Game::createUniformBuffers` on the state:
    `uniformBuffers.resize(swapchainImages.size())` with one buffer each. -/
def createUniformBuffers (st : GameState) : GameState :=
  { st with numUniformBuffers := st.numSwapchainImages }

/-- `Game::createCommandBuffers`:
    `commandBuffers.resize(swapchainFramebuffers.size())`, allocated and
    recorded in bulk. -/
def createCommandBuffers (st : GameState) : GameState :=
  { st with numCommandBuffers := st.numFramebuffers }

/-- `Game::createSyncObjects`: sizes the three per-slot rings to
    `maxFramesInFlight` and `imagesInFlight.resize(swapchainImages.size())`. -/
def createSyncObjects (st : GameState) : GameState :=
  { st with numImagesInFlight := st.numSwapchainImages }

/-- `Game::cleanupSwapchain` (src/VulkanGame/game.cpp:1136): destroys the
    handles held in the vectors but never shrinks the vectors themselves. -/
def cleanupSwapchain (st : GameState) : GameState := st

/-- `Game::recreateSwapchain` (src/VulkanGame/game.cpp:912): waits for the
    device, cleans up, then recreates the swap-chain group in source order.
    `imageCount` is the image count the rebuilt swap-chain hands back. -/
def recreateSwapchain (imageCount : Nat) (st : GameState) : GameState :=
  createCommandBuffers (createUniformBuffers (createFramebuffers
    (createGraphicsPipeline (createRenderPass (createImageViews
      (createSwapchain imageCount (cleanupSwapchain st)))))))

/-- The state after `Game::initVulkan` (src/VulkanGame/game.cpp:961), applying
    the member-creating calls in their source order; `imageCount` is the image
    count the swap-chain hands back. -/
def initVulkanState (imageCount : Nat) : GameState :=
  createSyncObjects (createCommandBuffers (createUniformBuffers
    (createIndexBuffer (createVertexBuffer (createCommandPool
      (createFramebuffers (createGraphicsPipeline (createDescriptorSetLayout
        (createRenderPass (createImageViews
          (createSwapchain imageCount initialState)))))))))))

/-- The per-frame inputs `Game::drawFrame` receives from Vulkan and GLFW: the
    result and image index of `vkAcquireNextImageKHR`, whether `vkQueueSubmit`
    succeeds, the result of `vkQueuePresentKHR`, and the image count a rebuilt
    swap-chain would hand back. -/
structure DrawEnv where
  acquireResult : VkResult
  imageIdx : Nat
  submitOk : Bool
  presentResult : VkResult
  rebuiltImageCount : Nat
  deriving DecidableEq

/-- What a completed run of `Game::drawFrame` did: whether a command buffer
    was submitted to the graphics queue, and whether the swap-chain was
    rebuilt. -/
structure DrawTrace where
  submitted : Bool
  rebuilt : Bool
  deriving DecidableEq

/-- `Game::drawFrame` (src/VulkanGame/game.cpp:1033). Fatal `throw`s are
    `Except.error` with the thrown message; the fence waits, the
    `imagesInFlight` bookkeeping and the uniform update touch no modelled
    field. On an out-of-date acquire the function rebuilds and returns early;
    after a present that is out of date, suboptimal, or observes the resize
    flag it clears the flag and rebuilds, and then still falls through to the
    `currentFrame` increment. -/
def drawFrame (maxFramesInFlight : Nat) (env : DrawEnv) (st : GameState) :
    Except String (GameState × DrawTrace) :=
  if env.acquireResult = VkResult.errorOutOfDateKHR then
    Except.ok (recreateSwapchain env.rebuiltImageCount st, ⟨false, true⟩)
  else if env.acquireResult ≠ VkResult.success ∧ env.acquireResult ≠ VkResult.suboptimalKHR then
    Except.error "Failed to acquire swapchain images!"
  else if !env.submitOk then
    Except.error "Failed to submit draw command buffer!"
  else if env.presentResult = VkResult.errorOutOfDateKHR ∨
      env.presentResult = VkResult.suboptimalKHR ∨ st.framebufferResized then
    let st' := recreateSwapchain env.rebuiltImageCount { st with framebufferResized := false }
    Except.ok ({ st' with currentFrame := (st'.currentFrame + 1) % maxFramesInFlight },
      ⟨true, true⟩)
  else if env.presentResult ≠ VkResult.success then
    Except.error "Failed to present swapchain images!"
  else
    Except.ok ({ st with currentFrame := (st.currentFrame + 1) % maxFramesInFlight },
      ⟨true, false⟩)

/-- The GPU-side objects `Game::initVulkan` creates, one constructor per
    member-creating call, in source order. -/
inductive Resource where
  | vulkanInst
  | debugMessenger
  | surface
  | logicalDevice
  | swapchain
  | imageViews
  | renderPass
  | descSetLayout
  | pipelineLayout
  | graphicsPipeline
  | framebuffers
  | commandPool
  | vertexBuffer
  | indexBuffer
  | uniformBuffers
  | commandBuffers
  | syncObjects
  deriving DecidableEq

/-- A run of `Game::initVulkan`: the objects created so far and the message of
    the first `throw`, if any. -/
structure InitTrace where
  created : List Resource
  failure : Option String
  deriving DecidableEq

/-- `Game::initVulkan` (src/VulkanGame/game.cpp:961) as a sequence of
    creation steps in source order, stopping at the first failure.
    `Game::createGraphicsPipeline` reads `shaders/vert.spv` and
    `shaders/frag.spv` before creating anything, so when the read fails it
    fails without creating an object. `Utils::readFile` is not part of the
    sources under verification; its failure behaviour is modelled from the
    spec: a shader file that cannot be read throws `ShaderLoadError`, fatal at
    init. The Vulkan creation calls, whose failures depend only on the driver,
    are modelled as succeeding; `validation` is
    `constants::enableValidationLayers` and `shaderReadOk` is whether both
    shader files can be read. -/
def initVulkan (validation : Bool) (shaderReadOk : Bool) : InitTrace :=
  let steps : List (List Resource × Option String) :=
    [ ([Resource.vulkanInst], none),
      (if validation then [Resource.debugMessenger] else [], none),
      ([Resource.surface], none),
      ([], none),
      ([Resource.logicalDevice], none),
      ([Resource.swapchain], none),
      ([Resource.imageViews], none),
      ([Resource.renderPass], none),
      ([Resource.descSetLayout], none),
      (if shaderReadOk then [Resource.pipelineLayout, Resource.graphicsPipeline] else [],
        if shaderReadOk then none else some "ShaderLoadError"),
      ([Resource.framebuffers], none),
      ([Resource.commandPool], none),
      ([Resource.vertexBuffer], none),
      ([Resource.indexBuffer], none),
      ([Resource.uniformBuffers], none),
      ([Resource.commandBuffers], none),
      ([Resource.syncObjects], none) ]
  steps.foldl
    (fun acc step =>
      match acc.failure with
      | some _ => acc
      | none =>
        match step.2 with
        | some msg => { acc with failure := some msg }
        | none => { acc with created := acc.created ++ step.1 })
    ⟨[], none⟩

/-- The Vulkan calls `Game::createUniformBuffers` and
    `Game::updateUniformBuffer` issue against uniform buffer `i`. -/
inductive UboOp where
  | createBuffer (i : Nat)
  | mapMemory (i : Nat)
  | memcpy (i : Nat)
  | unmapMemory (i : Nat)
  deriving DecidableEq

/-- The uniform buffer a call targets. -/
def UboOp.bufferIndex : UboOp → Nat
  | .createBuffer i => i
  | .mapMemory i => i
  | .memcpy i => i
  | .unmapMemory i => i

/-- Whether a call is `vkMapMemory`. -/
def UboOp.isMapMemory : UboOp → Bool
  | .mapMemory _ => true
  | _ => false

/-- The calls `Game::createUniformBuffers` (src/VulkanGame/game.cpp:823)
    makes: one host-visible, host-coherent buffer per swap image, and nothing
    else — in particular no `vkMapMemory`. -/
def createUniformBuffersOps (numImages : Nat) : List UboOp :=
  (List.range numImages).map UboOp.createBuffer

/-- The calls `Game::updateUniformBuffer` (src/VulkanGame/game.cpp:1007)
    makes against buffer `currImg` after computing the MVP struct: map the
    memory, copy the struct, unmap the memory. -/
def updateUniformBufferOps (currImg : Nat) : List UboOp :=
  [UboOp.mapMemory currImg, UboOp.memcpy currImg, UboOp.unmapMemory currImg]

/-- The size invariant of the swap-chain group: image views, framebuffers,
    uniform buffers and primary command buffers each match the number of
    acquired swap images. -/
def sizesInvariant (st : GameState) : Prop :=
  st.numImageViews = st.numSwapchainImages ∧
  st.numFramebuffers = st.numSwapchainImages ∧
  st.numUniformBuffers = st.numSwapchainImages ∧
  st.numCommandBuffers = st.numSwapchainImages

/-- One step of the selection rule `Game::pickPhysicalDevice` implements:
    keep the best score seen so far and, on a tie or an improvement, switch to
    the device enumerated later. -/
def bestStep (acc : Option (Nat × PhysicalDevice)) (d : PhysicalDevice) :
    Option (Nat × PhysicalDevice) :=
  match acc with
  | none => some (Utils.getDeviceScore d, d)
  | some (s, b) =>
    if Utils.getDeviceScore d ≥ s then some (Utils.getDeviceScore d, d) else some (s, b)

/-- The selection rule `Game::pickPhysicalDevice` implements, written as one
    left fold of `bestStep`: the best score, held by the device enumerated
    latest among those sharing it. -/
def bestCandidate (devices : List PhysicalDevice) : Option (Nat × PhysicalDevice) :=
  devices.foldl bestStep none

/-- The multimap invariant: candidate entries are sorted by score. -/
def SortedByScore (l : List (Nat × PhysicalDevice)) : Prop :=
  l.Pairwise fun p q => p.1 ≤ q.1

end Game

/-- Modelled from the spec: the extent policy exactly as §4.3 words it —
    adopt `currentExtent` verbatim when both of its dimensions are less than
    `UINT32_MAX`, otherwise clamp the platform framebuffer pixel size `fb`
    into `[minImageExtent, maxImageExtent]` on each axis. -/
def specExtentPolicy (fb : Extent2D) (capabilities : SurfaceCapabilities)
    (chosen : Extent2D) : Prop :=
  if capabilities.currentExtent.width < UINT32_MAX ∧
      capabilities.currentExtent.height < UINT32_MAX then
    chosen = capabilities.currentExtent
  else
    chosen =
      { width := max capabilities.minImageExtent.width
          (min capabilities.maxImageExtent.width fb.width),
        height := max capabilities.minImageExtent.height
          (min capabilities.maxImageExtent.height fb.height) }

/-- Surface capabilities whose current extent has a full-range height but a
    small width: the width-only test of `Utils::chooseSwapExtent` adopts the
    extent verbatim although one dimension is not below `UINT32_MAX`. -/
def capsWidthOnly : SurfaceCapabilities :=
  { currentExtent := ⟨5, UINT32_MAX⟩, minImageExtent := ⟨7, 7⟩,
    maxImageExtent := ⟨7, 7⟩, minImageCount := 1, maxImageCount := 0 }

/-- Surface capabilities that force the fallback branch of
    `Utils::chooseSwapExtent`, with clamp bounds wide enough that the branch
    returns the configured window size unclamped. -/
def capsFallbackDemo : SurfaceCapabilities :=
  { currentExtent := ⟨UINT32_MAX, 500⟩, minImageExtent := ⟨1, 1⟩,
    maxImageExtent := ⟨4000, 4000⟩, minImageCount := 1, maxImageCount := 0 }

/-- Surface capabilities with an ordinary current extent, adopted verbatim. -/
def capsAdoptDemo : SurfaceCapabilities :=
  { currentExtent := ⟨1280, 720⟩, minImageExtent := ⟨1, 1⟩,
    maxImageExtent := ⟨4000, 4000⟩, minImageCount := 1, maxImageCount := 0 }

/-- Surface capabilities with `minImageCount = 2` and `maxImageCount = 3`. -/
def capsCountDemo : SurfaceCapabilities :=
  { currentExtent := ⟨800, 600⟩, minImageExtent := ⟨1, 1⟩,
    maxImageExtent := ⟨4000, 4000⟩, minImageCount := 2, maxImageCount := 3 }

/-- A format list whose preferred entry sits in second position. -/
def demoFormats : List SurfaceFormat :=
  [⟨Format.r8g8b8a8Srgb, ColorSpace.srgbNonlinear⟩,
   ⟨Format.b8g8r8a8Srgb, ColorSpace.srgbNonlinear⟩]

/-- A fully suitable physical device: geometry shader, swap-chain extension,
    one surface format, one present mode, one graphics-and-present queue
    family, discrete, `maxImageDimension2D = 4096`. Only the name varies. -/
def suitableDevice (name : String) : PhysicalDevice :=
  { deviceName := name, deviceType := PhysicalDeviceType.discreteGpu,
    maxImageDimension2D := 4096, geometryShader := true,
    availableExtensions := ["VK_KHR_swapchain"],
    capabilities := capsCountDemo,
    formats := [⟨Format.b8g8r8a8Srgb, ColorSpace.srgbNonlinear⟩],
    presentModes := [PresentMode.fifo],
    queueFamilies := [⟨true, true⟩] }

/-- A device identical to `suitableDevice` except that it reports no surface
    format, so `Utils::getDeviceScore` must reject it. -/
def noFormatsDevice : PhysicalDevice :=
  { suitableDevice "No Formats" with formats := [] }

/-- The first of two equally scored suitable devices. -/
def devGpuA : PhysicalDevice := suitableDevice "GPU A"

/-- The second of two equally scored suitable devices. -/
def devGpuB : PhysicalDevice := suitableDevice "GPU B"

/-- A game state as left by `initVulkan` with three swap images. -/
def stRunDemo : Game.GameState := Game.initVulkanState 3

/-- `stRunDemo` after one successful frame with two frames in flight. -/
def stRunDemoNext : Game.GameState := { stRunDemo with currentFrame := 1 }

/-- Frame inputs for a fully successful frame. -/
def envOkDemo : Game.DrawEnv :=
  { acquireResult := Game.VkResult.success, imageIdx := 0, submitOk := true,
    presentResult := Game.VkResult.success, rebuiltImageCount := 3 }

/-- Frame inputs whose present returns `VK_ERROR_OUT_OF_DATE_KHR`. -/
def envPresentOOD : Game.DrawEnv :=
  { acquireResult := Game.VkResult.success, imageIdx := 0, submitOk := true,
    presentResult := Game.VkResult.errorOutOfDateKHR, rebuiltImageCount := 3 }

/-- Projections of `recreateSwapchain`: the rebuild never touches
    `currentFrame` or `framebufferResized`. -/
theorem recreateSwapchain_currentFrame (imageCount : Nat) (st : Game.GameState) :
    (Game.recreateSwapchain imageCount st).currentFrame = st.currentFrame := rfl

/-- C5: in every frame, an out-of-date acquire rebuilds the swap-chain and
    returns without submitting and with `currentFrame` unchanged; a suboptimal
    acquire makes the frame proceed exactly as a successful one; any other
    non-success acquire is fatal. -/
theorem C5_acquire_policy (maxFramesInFlight : Nat) (env : Game.DrawEnv)
    (st : Game.GameState) :
    (Game.drawFrame maxFramesInFlight
        { env with acquireResult := Game.VkResult.errorOutOfDateKHR } st =
          Except.ok (Game.recreateSwapchain env.rebuiltImageCount st, ⟨false, true⟩) ∧
      (Game.recreateSwapchain env.rebuiltImageCount st).currentFrame = st.currentFrame) ∧
    Game.drawFrame maxFramesInFlight
        { env with acquireResult := Game.VkResult.suboptimalKHR } st =
      Game.drawFrame maxFramesInFlight
        { env with acquireResult := Game.VkResult.success } st ∧
    Game.drawFrame maxFramesInFlight
        { env with acquireResult := Game.VkResult.otherError } st =
      Except.error "Failed to acquire swapchain images!" :=
  ⟨⟨rfl, rfl⟩, rfl, rfl⟩

/-- C7: the image count requested at swap-chain creation is
    `minImageCount + 1`, capped at `maxImageCount` unless that bound is `0`
    (unbounded) — that is, `min(minImageCount + 1, maxImageCount)` with
    `maxImageCount == 0` treated as unbounded. -/
theorem C7_image_count (capabilities : SurfaceCapabilities)
    (h : capabilities.minImageCount + 1 < 2 ^ 32) :
    Game.swapImageCount capabilities =
      if capabilities.maxImageCount = 0 ∨
          capabilities.minImageCount + 1 ≤ capabilities.maxImageCount then
        capabilities.minImageCount + 1
      else
        capabilities.maxImageCount := by
  simp only [Game.swapImageCount, Nat.mod_eq_of_lt h]
  split_ifs <;> omega

/-- C7 at concrete capabilities: `min = 2`, `max = 3` requests `3` images. -/
theorem C7_image_count_witness : Game.swapImageCount capsCountDemo = 3 := by
  have h := C7_image_count capsCountDemo (by decide)
  simpa [capsCountDemo] using h

/-- C2 fails on the code at two concrete capability values: with
    `currentExtent = (5, UINT32_MAX)` the width-only test adopts the extent
    verbatim although its height is not below `UINT32_MAX` (the spec's policy
    demands the clamp branch, which here forces `(7, 7)`); and in the fallback
    branch the code clamps the configured `1920 x 1080`, not the framebuffer
    size `800 x 600`. -/
theorem C2_counterexample :
    ¬ specExtentPolicy ⟨800, 600⟩ capsWidthOnly (Utils.chooseSwapExtent capsWidthOnly) ∧
    ¬ specExtentPolicy ⟨800, 600⟩ capsFallbackDemo (Utils.chooseSwapExtent capsFallbackDemo) := by
  unfold specExtentPolicy
  decide

/-- C2 amended: the chosen swap extent equals the surface's current extent
    verbatim whenever that extent's width differs from `UINT32_MAX`; otherwise
    it equals the configured window size `1920 x 1080` clamped on each axis
    into `[minImageExtent, maxImageExtent]`. -/
theorem C2_extent_policy (capabilities : SurfaceCapabilities) :
    (capabilities.currentExtent.width ≠ UINT32_MAX →
      Utils.chooseSwapExtent capabilities = capabilities.currentExtent) ∧
    (capabilities.currentExtent.width = UINT32_MAX →
      Utils.chooseSwapExtent capabilities =
        ⟨max capabilities.minImageExtent.width
            (min capabilities.maxImageExtent.width 1920),
          max capabilities.minImageExtent.height
            (min capabilities.maxImageExtent.height 1080)⟩) := by
  constructor <;> intro h <;>
    simp [Utils.chooseSwapExtent, h, constants.width, constants.height]

/-- C2 amended policy at concrete inputs: an ordinary extent is adopted
    verbatim, and the wide-bounds fallback returns `1920 x 1080`. -/
theorem C2_extent_policy_witness :
    Utils.chooseSwapExtent capsAdoptDemo = capsAdoptDemo.currentExtent ∧
    Utils.chooseSwapExtent capsFallbackDemo = ⟨1920, 1080⟩ := by
  refine ⟨(C2_extent_policy capsAdoptDemo).1 (by decide), ?_⟩
  rw [(C2_extent_policy capsFallbackDemo).2 (by decide)]
  decide

/-- C9 fails on the code: the per-frame uniform update for image `0` issues a
    `vkMapMemory` and a `vkUnmapMemory`, and buffer creation establishes no
    mapping at all, so there is no persistent mapping the update could write
    through. -/
theorem C9_counterexample :
    Game.UboOp.mapMemory 0 ∈ Game.updateUniformBufferOps 0 ∧
    Game.UboOp.unmapMemory 0 ∈ Game.updateUniformBufferOps 0 ∧
    (Game.createUniformBuffersOps 3).all (fun op => !op.isMapMemory) = true := by
  decide

/-- C9 amended: uniform-buffer creation maps nothing; the per-frame update
    for image `i` touches only buffer `i`, mapping its memory once, copying
    the MVP struct, and unmapping it once within the same call. -/
theorem C9_update_mapping (currImg numImages : Nat) :
    ((Game.updateUniformBufferOps currImg).all fun op => op.bufferIndex == currImg) = true ∧
    (Game.updateUniformBufferOps currImg).count (Game.UboOp.mapMemory currImg) = 1 ∧
    (Game.updateUniformBufferOps currImg).count (Game.UboOp.unmapMemory currImg) = 1 ∧
    ((Game.createUniformBuffersOps numImages).all fun op => !op.isMapMemory) = true := by
  refine ⟨?_, ?_, ?_, ?_⟩
  · simp [Game.updateUniformBufferOps, Game.UboOp.bufferIndex]
  · simp [Game.updateUniformBufferOps, List.count_cons]
  · simp [Game.updateUniformBufferOps, List.count_cons]
  · simp [Game.createUniformBuffersOps, Game.UboOp.isMapMemory, List.all_map,
      Function.comp]

/-- C4 fails on the code: in the run whose shader read fails, the swap-chain,
    the image views, the render pass and the descriptor set layout have
    already been created by the time `initVulkan` aborts. -/
theorem C4_counterexample :
    (Game.initVulkan false false).failure.isSome = true ∧
    Game.Resource.swapchain ∈ (Game.initVulkan false false).created ∧
    Game.Resource.imageViews ∈ (Game.initVulkan false false).created ∧
    Game.Resource.renderPass ∈ (Game.initVulkan false false).created ∧
    Game.Resource.descSetLayout ∈ (Game.initVulkan false false).created := by
  decide

/-- C4 amended: when a shader file cannot be read, `initVulkan` aborts with
    the shader-load failure before creating any pipeline object — no pipeline
    layout, graphics pipeline, framebuffer, command pool, vertex/index/uniform
    buffer, command buffer or sync object exists in the aborting run — but
    after the swap-chain, image views, render pass and descriptor set layout
    have been created on top of the logical device. -/
theorem C4_abort_point (validation : Bool) :
    (Game.initVulkan validation false).failure = some "ShaderLoadError" ∧
    (Game.initVulkan validation false).created =
      [Game.Resource.vulkanInst] ++
        (if validation then [Game.Resource.debugMessenger] else []) ++
        [Game.Resource.surface, Game.Resource.logicalDevice, Game.Resource.swapchain,
          Game.Resource.imageViews, Game.Resource.renderPass, Game.Resource.descSetLayout] ∧
    Game.Resource.pipelineLayout ∉ (Game.initVulkan validation false).created ∧
    Game.Resource.graphicsPipeline ∉ (Game.initVulkan validation false).created ∧
    Game.Resource.framebuffers ∉ (Game.initVulkan validation false).created ∧
    Game.Resource.commandPool ∉ (Game.initVulkan validation false).created ∧
    Game.Resource.vertexBuffer ∉ (Game.initVulkan validation false).created ∧
    Game.Resource.uniformBuffers ∉ (Game.initVulkan validation false).created ∧
    Game.Resource.commandBuffers ∉ (Game.initVulkan validation false).created ∧
    Game.Resource.syncObjects ∉ (Game.initVulkan validation false).created := by
  cases validation <;> decide

/-- C1 fails on the code at a concrete frame: with `currentFrame = 0` and two
    frames in flight, a frame whose acquire succeeds but whose present returns
    `VK_ERROR_OUT_OF_DATE_KHR` rebuilds the swap-chain and still advances
    `currentFrame` to `1`. -/
theorem C1_counterexample :
    (Game.drawFrame 2 envPresentOOD stRunDemo).toOption.map
        (fun p => (p.1.currentFrame, p.2.submitted, p.2.rebuilt)) =
      some (1, true, true) ∧
    stRunDemo.currentFrame = 0 ∧
    envPresentOOD.presentResult = Game.VkResult.errorOutOfDateKHR := by
  decide

/-- C1 amended: `currentFrame` advances modulo `maxFramesInFlight` at the end
    of every frame that submitted — that is, every non-fatal frame whose
    acquire was not out-of-date, including frames whose present was
    out-of-date or suboptimal or observed the resize flag and therefore
    rebuilt the swap-chain — and stays unchanged exactly on the early return
    of an out-of-date acquire. -/
theorem C1_currentFrame_advance (maxFramesInFlight : Nat) (env : Game.DrawEnv)
    (st st' : Game.GameState) (tr : Game.DrawTrace)
    (h : Game.drawFrame maxFramesInFlight env st = Except.ok (st', tr)) :
    (env.acquireResult = Game.VkResult.errorOutOfDateKHR →
      st'.currentFrame = st.currentFrame ∧ tr.submitted = false) ∧
    (env.acquireResult ≠ Game.VkResult.errorOutOfDateKHR →
      st'.currentFrame = (st.currentFrame + 1) % maxFramesInFlight ∧
        tr.submitted = true) := by
  simp only [Game.drawFrame] at h
  split_ifs at h with h1 h2 h3 h4 h5
  · rw [Except.ok.injEq, Prod.mk.injEq] at h
    exact ⟨fun _ => ⟨h.1 ▸ rfl, h.2 ▸ rfl⟩, fun hne => absurd h1 hne⟩
  · rw [Except.ok.injEq, Prod.mk.injEq] at h
    exact ⟨fun ha => absurd ha h1, fun _ => ⟨h.1 ▸ rfl, h.2 ▸ rfl⟩⟩
  · rw [Except.ok.injEq, Prod.mk.injEq] at h
    exact ⟨fun ha => absurd ha h1, fun _ => ⟨h.1 ▸ rfl, h.2 ▸ rfl⟩⟩

/-- C1 amended at a concrete successful frame: `currentFrame` goes from `0`
    to `1 = (0 + 1) % 2` and the frame submitted. -/
theorem C1_currentFrame_advance_witness :
    stRunDemoNext.currentFrame = (stRunDemo.currentFrame + 1) % 2 ∧
    (⟨true, false⟩ : Game.DrawTrace).submitted = true :=
  (C1_currentFrame_advance 2 envOkDemo stRunDemo stRunDemoNext ⟨true, false⟩ rfl).2
    (by decide)

/-- C8: the count equality between image views, framebuffers, uniform buffers,
    primary command buffers and swap images holds after initialization, holds
    after any swap-chain rebuild, and is preserved by every completed frame of
    the loop. -/
theorem C8_resource_counts (imageCount maxFramesInFlight : Nat) (env : Game.DrawEnv)
    (st st' : Game.GameState) (tr : Game.DrawTrace)
    (hinv : Game.sizesInvariant st)
    (h : Game.drawFrame maxFramesInFlight env st = Except.ok (st', tr)) :
    Game.sizesInvariant (Game.initVulkanState imageCount) ∧
    Game.sizesInvariant (Game.recreateSwapchain imageCount st) ∧
    Game.sizesInvariant st' := by
  refine ⟨⟨rfl, rfl, rfl, rfl⟩, ⟨rfl, rfl, rfl, rfl⟩, ?_⟩
  simp only [Game.drawFrame] at h
  split_ifs at h with h1 h2 h3 h4 h5
  · rw [Except.ok.injEq, Prod.mk.injEq] at h
    exact h.1 ▸ ⟨rfl, rfl, rfl, rfl⟩
  · rw [Except.ok.injEq, Prod.mk.injEq] at h
    exact h.1 ▸ ⟨rfl, rfl, rfl, rfl⟩
  · rw [Except.ok.injEq, Prod.mk.injEq] at h
    exact h.1 ▸ hinv

/-- C8 at a concrete run: the invariant holds after init with four images,
    after a rebuild of the three-image state, and after a successful frame. -/
theorem C8_resource_counts_witness :
    Game.sizesInvariant (Game.initVulkanState 4) ∧
    Game.sizesInvariant (Game.recreateSwapchain 4 stRunDemo) ∧
    Game.sizesInvariant stRunDemoNext :=
  C8_resource_counts 4 2 envOkDemo stRunDemo stRunDemoNext ⟨true, false⟩
    ⟨rfl, rfl, rfl, rfl⟩ rfl

/-- C10: on a non-empty format list the chosen surface format is the first
    preferred (BGRA8 sRGB, nonlinear sRGB) entry when one exists and the
    list's first element otherwise — in particular the fallback index `0` is
    in bounds — and device selection guarantees non-emptiness by scoring any
    device with an empty format list as `0`. -/
theorem C10_surface_format (availableFormats : List SurfaceFormat)
    (h : availableFormats ≠ []) :
    Utils.chooseSwapSurfaceFormat availableFormats =
      some ((availableFormats.find? Utils.isPreferredFormat).getD
        (availableFormats.head h)) ∧
    ∀ device : PhysicalDevice, device.formats = [] →
      Utils.getDeviceScore device = 0 := by
  constructor
  · unfold Utils.chooseSwapSurfaceFormat
    cases hf : availableFormats.find? Utils.isPreferredFormat with
    | some fmt => simp
    | none =>
      cases availableFormats with
      | nil => exact absurd rfl h
      | cons a rest => simp
  · intro device hd
    simp only [Utils.getDeviceScore, Utils.querySwapChainSupport, hd]
    split_ifs <;> simp_all

/-- C10 at concrete inputs: the preferred entry in second position is chosen,
    and a device with an empty format list scores `0`. -/
theorem C10_surface_format_witness :
    Utils.chooseSwapSurfaceFormat demoFormats =
      some ⟨Format.b8g8r8a8Srgb, ColorSpace.srgbNonlinear⟩ ∧
    Utils.getDeviceScore noFormatsDevice = 0 := by
  have h := C10_surface_format demoFormats (by decide)
  refine ⟨?_, h.2 noFormatsDevice rfl⟩
  rw [h.1]
  decide

/-- Folding `erase` over an empty required set leaves it empty. -/
theorem foldl_erase_nil (l : List String) :
    l.foldl (fun req ext => req.erase ext) ([] : List String) = [] := by
  induction l with
  | nil => rfl
  | cons a t ih => simpa using ih

/-- Folding `erase` over a one-element required set empties it exactly when
    the folded list contains that element. -/
theorem foldl_erase_singleton (l : List String) (s : String) :
    (l.foldl (fun req ext => req.erase ext) [s]).isEmpty = l.contains s := by
  induction l with
  | nil => simp
  | cons a t ih =>
    simp only [List.foldl_cons, List.contains_cons]
    by_cases hsa : s = a
    · subst hsa
      simp [List.erase_cons, foldl_erase_nil]
    · have hba : (s == a) = false := by simp [hsa]
      have hab : (a == s) = false := by simp [Ne.symm hsa]
      simp [List.erase_cons, hba, hab, ih]

/-- The erase-based extension check is plain membership of the swap-chain
    extension name. -/
theorem hasDeviceExtensionSupport_eq (device : PhysicalDevice) :
    Utils.hasDeviceExtensionSupport device =
      device.availableExtensions.contains "VK_KHR_swapchain" :=
  foldl_erase_singleton device.availableExtensions "VK_KHR_swapchain"

/-- The queue-family loop, early break included, finds both indices exactly
    when some family has the graphics bit and some family has present
    support (on top of whatever the accumulator already holds). -/
theorem findQueueFamiliesAux_containsValue (l : List QueueFamily) (i : Nat)
    (acc : Utils.QueueFamilyIndices) :
    (Utils.findQueueFamiliesAux l i acc).containsValue =
      ((acc.graphicsFamily.isSome || l.any fun q => q.graphics) &&
        (acc.presentFamily.isSome || l.any fun q => q.presentSupport)) := by
  induction l generalizing i acc with
  | nil => simp [Utils.findQueueFamiliesAux, Utils.QueueFamilyIndices.containsValue]
  | cons qf rest ih =>
    have key : ∀ acc' : Utils.QueueFamilyIndices,
        (if acc'.containsValue then acc'
          else Utils.findQueueFamiliesAux rest (i + 1) acc').containsValue =
          ((acc'.graphicsFamily.isSome || rest.any fun q => q.graphics) &&
            (acc'.presentFamily.isSome || rest.any fun q => q.presentSupport)) := by
      intro acc'
      by_cases hcv : acc'.containsValue = true
      · rw [if_pos hcv, hcv]
        simp only [Utils.QueueFamilyIndices.containsValue, Bool.and_eq_true] at hcv
        simp [hcv.1, hcv.2]
      · rw [if_neg hcv, ih]
    cases hg : qf.graphics <;> cases hp : qf.presentSupport <;>
      simp only [Utils.findQueueFamiliesAux, hg, hp, if_true, if_false, List.any_cons] <;>
      rw [key] <;>
      simp [Utils.QueueFamilyIndices.containsValue]

/-- `Utils::findQueueFamilies` succeeds exactly when a graphics-capable and a
    present-capable family both exist. -/
theorem findQueueFamilies_containsValue (device : PhysicalDevice) :
    (Utils.findQueueFamilies device).containsValue =
      ((device.queueFamilies.any fun q => q.graphics) &&
        (device.queueFamilies.any fun q => q.presentSupport)) := by
  rw [Utils.findQueueFamilies, findQueueFamiliesAux_containsValue]
  rfl

/-- C6: a candidate scores `0` exactly when it lacks geometry shaders, the
    swap-chain extension, a surface format, a present mode, a
    graphics-capable queue family or a present-capable queue family;
    otherwise its score is `1000 * isDiscrete + maxImageDimension2D`. -/
theorem C6_device_score (device : PhysicalDevice) :
    Utils.getDeviceScore device =
      if device.geometryShader &&
          device.availableExtensions.contains "VK_KHR_swapchain" &&
          !device.formats.isEmpty && !device.presentModes.isEmpty &&
          (device.queueFamilies.any fun q => q.graphics) &&
          (device.queueFamilies.any fun q => q.presentSupport) then
        1000 * (if device.deviceType = PhysicalDeviceType.discreteGpu then 1 else 0) +
          device.maxImageDimension2D
      else 0 := by
  simp only [Utils.getDeviceScore, Utils.querySwapChainSupport,
    hasDeviceExtensionSupport_eq, findQueueFamilies_containsValue]
  by_cases hd : device.deviceType = PhysicalDeviceType.discreteGpu <;>
  cases hg : device.geometryShader <;>
  cases he : device.availableExtensions.contains "VK_KHR_swapchain" <;>
  cases hf : device.formats.isEmpty <;>
  cases hp : device.presentModes.isEmpty <;>
  cases hqg : device.queueFamilies.any fun q => q.graphics <;>
  cases hqp : device.queueFamilies.any fun q => q.presentSupport <;>
  simp [hd, hg, he, hf, hp, hqg, hqp]

/-- Membership in a multimap insertion. -/
theorem mem_multimapInsert (l : List (Nat × PhysicalDevice)) (p r : Nat × PhysicalDevice) :
    r ∈ Game.multimapInsert l p ↔ r ∈ l ∨ r = p := by
  induction l with
  | nil => simp [Game.multimapInsert]
  | cons q rest ih =>
    rw [Game.multimapInsert]
    split <;> simp [ih] <;> tauto

/-- Multimap insertion keeps the candidate list sorted by score. -/
theorem multimapInsert_sorted (l : List (Nat × PhysicalDevice)) (p : Nat × PhysicalDevice)
    (h : Game.SortedByScore l) : Game.SortedByScore (Game.multimapInsert l p) := by
  induction l with
  | nil => simp [Game.multimapInsert, Game.SortedByScore]
  | cons q rest ih =>
    rw [Game.multimapInsert]
    rcases List.pairwise_cons.mp h with ⟨hq, hrest⟩
    by_cases hlt : p.1 < q.1
    · rw [if_pos hlt]
      refine List.pairwise_cons.mpr ⟨?_, h⟩
      intro r hr
      rcases List.mem_cons.mp hr with rfl | hr
      · exact le_of_lt hlt
      · exact le_trans (le_of_lt hlt) (hq r hr)
    · rw [if_neg hlt]
      refine List.pairwise_cons.mpr ⟨?_, ih hrest⟩
      intro r hr
      rcases (mem_multimapInsert rest p r).mp hr with hr | rfl
      · exact hq r hr
      · omega

/-- Multimap insertion never produces the empty list. -/
theorem multimapInsert_ne_nil (l : List (Nat × PhysicalDevice)) (p : Nat × PhysicalDevice) :
    Game.multimapInsert l p ≠ [] := by
  cases l with
  | nil => simp [Game.multimapInsert]
  | cons q rest => rw [Game.multimapInsert]; split <;> simp

/-- `getLast?` skips the head of a list with a non-empty tail. -/
theorem getLast?_cons_of_ne_nil {α : Type} (a : α) {l : List α} (h : l ≠ []) :
    (a :: l).getLast? = l.getLast? := by
  cases l with
  | nil => exact absurd rfl h
  | cons b t => exact List.getLast?_cons_cons

/-- Inserting into a sorted multimap: the last entry (`rbegin`) becomes the
    inserted pair exactly when its key is at least the old last key, ties
    included. -/
theorem multimapInsert_getLast (l : List (Nat × PhysicalDevice)) (p : Nat × PhysicalDevice)
    (h : Game.SortedByScore l) :
    (Game.multimapInsert l p).getLast? =
      some (match l.getLast? with
        | none => p
        | some q => if q.1 ≤ p.1 then p else q) := by
  induction l with
  | nil => rfl
  | cons q rest ih =>
    rw [Game.multimapInsert]
    by_cases hlt : p.1 < q.1
    · rw [if_pos hlt]
      have hne : q :: rest ≠ [] := List.cons_ne_nil q rest
      have hlast := List.getLast?_eq_getLast_of_ne_nil hne
      have hmem := List.getLast_mem hne
      have hqle : q.1 ≤ ((q :: rest).getLast hne).1 := by
        rcases List.mem_cons.mp hmem with heq | hr
        · exact (congrArg Prod.fst heq).ge
        · exact (List.pairwise_cons.mp h).1 _ hr
      rw [getLast?_cons_of_ne_nil p hne, hlast]
      have hnle : ¬ ((q :: rest).getLast hne).1 ≤ p.1 := by omega
      simp only [hnle, if_false]
    · rw [if_neg hlt]
      rw [getLast?_cons_of_ne_nil q (multimapInsert_ne_nil rest p)]
      rw [ih (List.pairwise_cons.mp h).2]
      cases hrl : rest.getLast? with
      | none =>
        have hrnil : rest = [] := by
          cases rest with
          | nil => rfl
          | cons x t =>
            rw [List.getLast?_eq_getLast_of_ne_nil (List.cons_ne_nil x t)] at hrl
            exact Option.noConfusion hrl
        subst hrnil
        simp only [List.getLast?_singleton]
        have hqp : q.1 ≤ p.1 := by omega
        simp only [hqp, if_true]
      | some last =>
        have hrne : rest ≠ [] := by
          intro hemp
          rw [hemp] at hrl
          exact Option.noConfusion hrl
        rw [getLast?_cons_of_ne_nil q hrne, hrl]

/-- Folding scored multimap insertions keeps the list sorted, and its last
    entry evolves exactly like `bestStep` folded over the devices. -/
theorem foldl_multimapInsert_spec (ds : List PhysicalDevice)
    (acc : List (Nat × PhysicalDevice)) (h : Game.SortedByScore acc) :
    Game.SortedByScore
      (ds.foldl (fun m d => Game.multimapInsert m (Utils.getDeviceScore d, d)) acc) ∧
    (ds.foldl (fun m d => Game.multimapInsert m (Utils.getDeviceScore d, d)) acc).getLast? =
      ds.foldl Game.bestStep acc.getLast? := by
  induction ds generalizing acc with
  | nil => exact ⟨h, rfl⟩
  | cons d rest ih =>
    simp only [List.foldl_cons]
    obtain ⟨ih1, ih2⟩ := ih _ (multimapInsert_sorted acc (Utils.getDeviceScore d, d) h)
    refine ⟨ih1, ?_⟩
    rw [ih2, multimapInsert_getLast acc (Utils.getDeviceScore d, d) h]
    congr 1
    cases acc.getLast? with
    | none => rfl
    | some q =>
      simp only [Game.bestStep, ge_iff_le]
      rw [apply_ite some]

/-- Once a candidate exists, folding `bestStep` keeps one. -/
theorem foldl_bestStep_isSome (rest : List PhysicalDevice) (x : Nat × PhysicalDevice) :
    (rest.foldl Game.bestStep (some x)).isSome := by
  induction rest generalizing x with
  | nil => rfl
  | cons d t ih =>
    simp only [List.foldl_cons, Game.bestStep]
    split
    · exact ih _
    · exact ih _

/-- `bestCandidate` is `none` only for the empty enumeration. -/
theorem bestCandidate_eq_none (devices : List PhysicalDevice)
    (h : Game.bestCandidate devices = none) : devices = [] := by
  cases devices with
  | nil => rfl
  | cons d rest =>
    rw [Game.bestCandidate, List.foldl_cons] at h
    have hsome := foldl_bestStep_isSome rest (Utils.getDeviceScore d, d)
    rw [show Game.bestStep none d = some (Utils.getDeviceScore d, d) from rfl] at h
    rw [h] at hsome
    exact Bool.noConfusion hsome

/-- `bestCandidate` returns the maximal score, held by its witness, which is
    the latest enumerated device attaining it. -/
theorem bestCandidate_spec (devices : List PhysicalDevice) :
    ∀ s b, Game.bestCandidate devices = some (s, b) →
      (∀ d ∈ devices, Utils.getDeviceScore d ≤ s) ∧
      Utils.getDeviceScore b = s ∧
      devices.reverse.find? (fun d => Utils.getDeviceScore d == s) = some b := by
  induction devices using List.reverseRecOn with
  | nil =>
    intro s b h
    exact absurd h (by simp [Game.bestCandidate])
  | append_singleton l d ih =>
    intro s b h
    rw [Game.bestCandidate, List.foldl_append, List.foldl_cons, List.foldl_nil] at h
    rw [show List.foldl Game.bestStep none l = Game.bestCandidate l from rfl] at h
    cases hl : Game.bestCandidate l with
    | none =>
      rw [hl] at h
      simp only [Game.bestStep] at h
      obtain ⟨rfl, rfl⟩ := Prod.mk.injEq .. ▸ (Option.some.injEq .. ▸ h)
      have hlnil : l = [] := bestCandidate_eq_none l hl
      subst hlnil
      refine ⟨?_, rfl, ?_⟩
      · intro d' hd'
        rcases List.mem_singleton.mp hd' with rfl
        exact le_refl _
      · simp
    | some q =>
      obtain ⟨s0, b0⟩ := q
      rw [hl] at h
      simp only [Game.bestStep, ge_iff_le] at h
      obtain ⟨hmax, hsc, hfind⟩ := ih s0 b0 hl
      by_cases hge : s0 ≤ Utils.getDeviceScore d
      · rw [if_pos hge] at h
        rw [Option.some.injEq, Prod.mk.injEq] at h
        obtain ⟨rfl, rfl⟩ := h
        refine ⟨?_, rfl, ?_⟩
        · intro d' hd'
          rcases List.mem_append.mp hd' with hmem | hmem
          · exact le_trans (hmax d' hmem) hge
          · rcases List.mem_singleton.mp hmem with rfl
            exact le_refl _
        · rw [List.reverse_append]
          simp only [List.reverse_singleton, List.singleton_append, List.find?_cons]
          simp
      · rw [if_neg hge] at h
        rw [Option.some.injEq, Prod.mk.injEq] at h
        obtain ⟨rfl, rfl⟩ := h
        refine ⟨?_, hsc, ?_⟩
        · intro d' hd'
          rcases List.mem_append.mp hd' with hmem | hmem
          · exact hmax d' hmem
          · rcases List.mem_singleton.mp hmem with rfl
            omega
        · rw [List.reverse_append]
          simp only [List.reverse_singleton, List.singleton_append, List.find?_cons]
          have hne : (Utils.getDeviceScore d == s0) = false := by
            simp only [beq_eq_false_iff_ne, ne_eq]
            omega
          rw [hne]
          exact hfind

/-- C3 fails on the code at a concrete enumeration: two devices with the same
    positive score, and selection returns the second, not the first. -/
theorem C3_counterexample :
    (Game.pickPhysicalDevice [devGpuA, devGpuB]).toOption = some devGpuB ∧
    devGpuB ≠ devGpuA ∧
    Utils.getDeviceScore devGpuA = Utils.getDeviceScore devGpuB ∧
    0 < Utils.getDeviceScore devGpuA := by
  decide

/-- C3 amended: selection returns the device with the highest score, ties
    broken towards the device latest in enumeration order (the multimap keeps
    equal keys in insertion order and `rbegin` reads the last); an empty
    enumeration or a best score of `0` is an error surfaced to the caller. -/
theorem C3_selection (devices : List PhysicalDevice) :
    (Game.pickPhysicalDevice devices =
      match Game.bestCandidate devices with
      | none => Except.error "Failed to find any GPUs with Vulkan support!"
      | some (s, d) =>
        if s > 0 then Except.ok d
        else Except.error "Failed to find a suitable GPU!") ∧
    ∀ s b, Game.bestCandidate devices = some (s, b) →
      (∀ d ∈ devices, Utils.getDeviceScore d ≤ s) ∧
      Utils.getDeviceScore b = s ∧
      devices.reverse.find? (fun d => Utils.getDeviceScore d == s) = some b := by
  refine ⟨?_, bestCandidate_spec devices⟩
  unfold Game.pickPhysicalDevice
  cases devices with
  | nil => rfl
  | cons d rest =>
    rw [if_neg (by simp)]
    have hfold := (foldl_multimapInsert_spec (d :: rest) [] List.Pairwise.nil).2
    show (match (List.foldl (fun m d => Game.multimapInsert m (Utils.getDeviceScore d, d))
        [] (d :: rest)).getLast? with
      | some best =>
        if best.1 > 0 then Except.ok best.2
        else Except.error "Failed to find a suitable GPU!"
      | none => Except.error "Failed to find a suitable GPU!") = _
    rw [hfold]
    rw [show ((d :: rest).foldl Game.bestStep
        ([] : List (Nat × PhysicalDevice)).getLast?) =
        Game.bestCandidate (d :: rest) from rfl]
    cases hbc : Game.bestCandidate (d :: rest) with
    | none => exact absurd (bestCandidate_eq_none _ hbc) (List.cons_ne_nil d rest)
    | some q => rfl

/-- C3 amended at a concrete tie: both devices score `5096`, and the winner is
    the second device, the latest in enumeration order attaining the maximum. -/
theorem C3_selection_witness :
    Utils.getDeviceScore devGpuB = 5096 ∧
    ([devGpuA, devGpuB].reverse.find? fun d => Utils.getDeviceScore d == 5096) =
      some devGpuB :=
  ⟨((C3_selection [devGpuA, devGpuB]).2 5096 devGpuB (by decide)).2.1,
    ((C3_selection [devGpuA, devGpuB]).2 5096 devGpuB (by decide)).2.2⟩
